import Mathlib

/-!
Verification development for the Claude-Memory autonomous learning pipeline
(`scripts/claude_learning.py`).

The Python program is shallowly embedded: external effects (the search
provider, the HTTP client, the HTML-to-text converter, the LLM client and
the database) are modelled as explicit oracle parameters returning
`Except`/`Option` values, while the program's own control flow and data
manipulation are translated function by function.  Store writes performed
by the orchestrator are recorded in an explicit event list so that claims
about which rows get written (and which do not) can be stated.
-/

set_option autoImplicit false

namespace ClaudeLearning

/-- Model of the Python values that appear in the dictionaries this program
builds: strings, integers, lists of strings, dictionaries of strings
(for the nested `new_interest_sparked` object) and `None`.  Fields are
assumed well-typed, matching how the program itself consumes them. -/
inductive PyVal where
  | str : String → PyVal
  | nat : Nat → PyVal
  | listStr : List String → PyVal
  | strDict : List (String × String) → PyVal
  | null : PyVal
deriving DecidableEq, Repr

/-- A Python dictionary with string keys, modelled as an association list. -/
abbrev PyDict := List (String × PyVal)

/-- Model of `d.get(k, default)` for a string-valued field. -/
def pyGetStrD (d : PyDict) (k : String) (dflt : String) : String :=
  match d.lookup k with
  | some (PyVal.str s) => s
  | _ => dflt

/-- Model of `d.get(k, default)` for a list-of-strings field. -/
def pyGetListStrD (d : PyDict) (k : String) (dflt : List String) : List String :=
  match d.lookup k with
  | some (PyVal.listStr l) => l
  | _ => dflt

/-- Model of `d.get(k)` followed by a Python truthiness test on an integer id
(`None` and `0` are falsy). -/
def pyGetNatTruthy (d : PyDict) (k : String) : Option Nat :=
  match d.lookup k with
  | some (PyVal.nat n) => if n = 0 then none else some n
  | _ => none

/-- Whether the dictionary has the given key, as in `k in d`. -/
def hasKey (d : PyDict) (k : String) : Bool :=
  (d.lookup k).isSome

/-- Model of Python `str.strip()`: drop whitespace from both ends
(restricted to ASCII whitespace, which is all this program produces). -/
def pyStrip (s : String) : String :=
  String.mk (List.rdropWhile Char.isWhitespace (s.data.dropWhile Char.isWhitespace))

/-- Model of the Python slice `s[:n]` for a nonnegative bound. -/
def pySliceTo (s : String) (n : Nat) : String :=
  String.mk (s.data.take n)

/-- Worker for `pySplit`: scan left to right, splitting greedily at each
non-overlapping occurrence of the (nonempty) separator.  The fuel is an
upper bound on the number of scanning steps; every step shortens the
remaining input, so `length + 1` fuel always suffices and the fuel-zero
arm is unreachable there. -/
def pySplitGo (sep : List Char) : Nat → List Char → List Char → List (List Char)
  | 0, rest, acc => [acc.reverse ++ rest]
  | fuel + 1, l, acc =>
    match l with
    | [] => [acc.reverse]
    | c :: cs =>
      if sep.isPrefixOf (c :: cs) then
        acc.reverse :: pySplitGo sep fuel ((c :: cs).drop sep.length) []
      else
        pySplitGo sep fuel cs (c :: acc)

/-- Model of Python `s.split(sep)` for a nonempty separator (the program
only splits on the fence markers and on a newline; Python rejects an
empty separator, modelled here as the identity split). -/
def pySplit (s sep : String) : List String :=
  if sep.data.isEmpty then [s]
  else (pySplitGo sep.data (s.data.length + 1) s.data []).map String.mk

/-- Model of Python `sub in s` for a nonempty separator (`sub` occurs iff
splitting on it yields more than one part). -/
def pyContains (s sub : String) : Bool :=
  (pySplit s sub).length > 1

/-! ### Configuration constants (`claude_learning.py`, lines 59--61) -/

def MAX_SEARCH_QUERIES : Nat := 3
def MAX_RESULTS_PER_QUERY : Nat := 3
def MAX_CONTENT_PER_PAGE : Nat := 4000

/-! ### Web search client (`search_web`, lines 372--387)

The DuckDuckGo provider is an oracle: it either raises (`Except.error`) or
returns raw result dictionaries, here modelled as records of optional
fields since the code probes both the `href`/`link` and `body`/`snippet`
naming conventions with `dict.get` defaults. -/

/-- A raw provider result: each probed field may be present or absent. -/
structure RawResult where
  href : Option String
  link : Option String
  title : Option String
  body : Option String
  snippet : Option String
deriving DecidableEq, Repr

/-- The dictionary `search_web` builds per provider result. -/
structure SearchResultDict where
  url : String
  title : String
  snippet : String
deriving DecidableEq, Repr

/-- The per-result conversion inside `search_web`'s list comprehension:
`{'url': r.get('href', r.get('link', '')), 'title': r.get('title', ''),
'snippet': r.get('body', r.get('snippet', ''))}`. -/
def convertRawResult (r : RawResult) : SearchResultDict :=
  { url := r.href.getD (r.link.getD "")
    title := r.title.getD ""
    snippet := r.body.getD (r.snippet.getD "") }

/-- `search_web(query, max_results)`: calls the provider inside
`try ... except`, converting results and degrading any provider exception
to the empty list. -/
def search_web (provider : String → Nat → Except String (List RawResult))
    (query : String) (max_results : Nat) : List SearchResultDict :=
  match provider query max_results with
  | Except.error _ => []
  | Except.ok results => results.map convertRawResult

/-! ### Content fetcher (`fetch_page_content`, lines 390--411)

The HTTP client and the `html2text` converter are oracles; either may
raise.  `response.raise_for_status()` raises exactly for status codes in
`[400, 600)`. -/

/-- The part of a `requests` response the function consumes. -/
structure HttpResponse where
  status : Nat
  text : String
deriving DecidableEq, Repr

/-- The cleaned line list from
`'\n'.join(line.strip() for line in text.split('\n') if line.strip())`:
each raw line stripped, blank results dropped. -/
def cleanParts (raw : String) : List String :=
  ((pySplit raw "\n").map pyStrip).filter (fun l => l ≠ "")

/-- The cleaned text: the kept stripped lines joined by newlines. -/
def cleanLines (raw : String) : String :=
  String.intercalate "\n" (cleanParts raw)

/-- `fetch_page_content(url, max_length)`: one HTTP GET, raise-for-status,
HTML-to-text conversion, line cleanup and truncation, all inside
`try ... except` returning `None` on any exception. -/
def fetch_page_content (http : String → Except String HttpResponse)
    (h2t : String → Except String String) (url : String) (max_length : Nat) :
    Option String :=
  match http url with
  | Except.error _ => none
  | Except.ok response =>
    if 400 ≤ response.status ∧ response.status < 600 then none
    else
      match h2t response.text with
      | Except.error _ => none
      | Except.ok raw =>
        let text := cleanLines raw
        some (if text.length > max_length then pySliceTo text max_length else text)

/-- The property the spec asserts of returned strings: every line is
non-blank and carries no leading or trailing whitespace. -/
def strippedNonBlankLines (s : String) : Bool :=
  (pySplit s "\n").all (fun l => !(l == "") && (pyStrip l == l))

/-! ### Research runner (`perform_research`, lines 488--525)

`search_web` and `fetch_page_content` appear through the orchestrator's
oracles as `searchFn` and `fetchFn`.  One row is accumulated per fetch
attempt: the loop body fetches and then unconditionally appends, so fetch
attempts are in bijection with produced rows. -/

/-- One accumulated/persisted research result row. -/
structure ResearchResultData where
  query : String
  url : String
  title : String
  snippet : String
  content : Option String
deriving DecidableEq, Repr

/-- The inner loop of `perform_research` for one query: search, keep the
top 2 results, skip empty URLs (`if not url: continue`), fetch content and
build the row. -/
def researchPerQuery (searchFn : String → List SearchResultDict)
    (fetchFn : String → Option String) (query : String) :
    List ResearchResultData :=
  ((searchFn query).take 2).filterMap (fun result =>
    if result.url = "" then none
    else some { query := query, url := result.url, title := result.title,
                snippet := result.snippet, content := fetchFn result.url })

/-- `perform_research(queries, ...)`: the outer loop over
`queries[:MAX_SEARCH_QUERIES]`, accumulating all rows in order. -/
def perform_research (searchFn : String → List SearchResultDict)
    (fetchFn : String → Option String) (queries : List String) :
    List ResearchResultData :=
  (queries.take MAX_SEARCH_QUERIES).flatMap (researchPerQuery searchFn fetchFn)

/-! ### LLM reply parsing (`choose_learning_topic` lines 469--485,
`reflect_on_learning` lines 583--599)

`json.loads` is modelled as an oracle `parseJson` returning `none` exactly
when its argument is not valid JSON.  The fenced-code-block extraction is
translated concretely. -/

/-- The payload extraction applied to the LLM reply before JSON decoding:
`content.split('<fence>json')[1].split('<fence>')[0]` when a json fence is
present, the analogous plain-fence extraction otherwise, else the whole
reply.  (Both call sites share this code verbatim.) -/
def extractPayload (content : String) : String :=
  if pyContains content "```json" then
    ((pySplit ((pySplit content "```json").getD 1 "") "```").getD 0 "")
  else if pyContains content "```" then
    ((pySplit ((pySplit content "```").getD 1 "") "```").getD 0 "")
  else content

/-- The fixed dictionary `choose_learning_topic` returns when parsing the
LLM reply fails (lines 479--485). -/
def fallback_topic_choice : PyDict :=
  [("choice_type", PyVal.str "new_topic"),
   ("topic", PyVal.str "Python best practices 2026"),
   ("search_queries", PyVal.listStr
      ["Python best practices 2026", "modern Python development patterns"]),
   ("why_now", PyVal.str "Fallback topic for continued learning"),
   ("hoping_to_learn", PyVal.str "Current Python development standards")]

/-- The parsing tail of `choose_learning_topic`: extract the payload,
strip it, decode it as JSON, and fall back to the fixed choice if decoding
fails. -/
def choose_learning_topic (parseJson : String → Option PyDict)
    (content : String) : PyDict :=
  match parseJson (pyStrip (extractPayload content)) with
  | some parsed => parsed
  | none => fallback_topic_choice

/-- The fixed dictionary `reflect_on_learning` returns when parsing the
LLM reply fails (lines 592--599). -/
def fallback_reflection : PyDict :=
  [("summary", PyVal.str "Research completed but reflection parsing failed."),
   ("key_insights", PyVal.listStr []),
   ("new_questions", PyVal.listStr []),
   ("confidence", PyVal.str "low"),
   ("applicable_to", PyVal.listStr []),
   ("new_interest_sparked", PyVal.null)]

/-- The parsing tail of `reflect_on_learning`: same extraction and decode
as the topic chooser, with the low-confidence fallback. -/
def reflect_on_learning (parseJson : String → Option PyDict)
    (content : String) : PyDict :=
  match parseJson (pyStrip (extractPayload content)) with
  | some parsed => parsed
  | none => fallback_reflection

/-! ### Learning interests (`add_learning_interest` lines 160--173,
`update_interest_insights` lines 175--189) -/

/-- One row of the `learning_interests` table, restricted to the columns
this pipeline touches.  The `last_explored_at` timestamp is an abstract
clock value. -/
structure LearningInterest where
  topic : String
  why_interested : String
  sparked_by : Option String
  priority : Nat
  status : String
  insights_gained : List String
  remaining_questions : List String
  last_explored_at : Option Nat
deriving DecidableEq, Repr

/-- Modelled from the spec: the SQL function `add_learning_interest` lives
in the database schema, which is not under `src/`; per spec sections 3 and
8 a freshly added interest starts with status "curious" and empty
insight/question lists. -/
def add_learning_interest (topic why_interested : String)
    (sparked_by : Option String) (priority : Nat) : LearningInterest :=
  { topic := topic, why_interested := why_interested, sparked_by := sparked_by,
    priority := priority, status := "curious", insights_gained := [],
    remaining_questions := [], last_explored_at := none }

/-- `update_interest_insights(interest_id, insights, questions)`: the
`UPDATE learning_interests` statement of lines 178--189 applied to one
row.  `insights_gained` is extended by concatenation; `remaining_questions`
is `COALESCE(new, old)` where Python passes NULL when `questions` is
`None` or empty (`Json(questions) if questions else None`); the status
CASE consults the pre-update `insights_gained` plus `len(insights)`. -/
def update_interest_insights (li : LearningInterest) (insights : List String)
    (questions : Option (List String)) (now : Nat) : LearningInterest :=
  { li with
    insights_gained := li.insights_gained ++ insights
    remaining_questions :=
      match questions with
      | some qs => if qs = [] then li.remaining_questions else qs
      | none => li.remaining_questions
    last_explored_at := some now
    status :=
      if li.status = "curious" then "exploring"
      else if li.insights_gained.length + insights.length > 10 then "deepening"
      else li.status }

/-- Rank of the escalating interest statuses, for stating that the status
never regresses. -/
def interestStatusRank (s : String) : Nat :=
  if s = "curious" then 0
  else if s = "exploring" then 1
  else if s = "deepening" then 2
  else 0

/-! ### Session orchestrator (`run_learning_session`, lines 606--723)

Each effectful step is an oracle that either raises or yields its value;
store writes are recorded as events.  `chooseTopic` and `reflect` model
the full LLM round trips: their non-exception values are the dictionaries
produced by `choose_learning_topic` / `reflect_on_learning` (whose parse
fallbacks never raise), while `Except.error` models an exception from the
API call itself, which those functions do not catch. -/

/-- A store write performed during one orchestrator run. -/
inductive StoreEvent where
  | sessionStarted : Nat → StoreEvent
  | researchQueued : Nat → StoreEvent
  | researchStatus : Nat → String → Option String → StoreEvent
  | resultSaved : ResearchResultData → StoreEvent
  | reflected : StoreEvent
  | insightRecorded : Nat → StoreEvent
  | interestUpdated : Nat → List String → List String → StoreEvent
  | interestAdded : String → StoreEvent
  | sessionCompleted : Nat → String → Option String → Nat → Nat → Nat → StoreEvent
deriving DecidableEq, Repr

/-- The environment of one `run_learning_session` call: the outcome of
each external step, in pipeline order. -/
structure SessionOracles where
  startSession : Except String Nat
  chooseTopic : Except String PyDict
  queueResearch : Except String Nat
  markInProgress : Except String Unit
  searchFn : String → List SearchResultDict
  fetchFn : String → Option String
  markFailed : Except String Unit
  reflect : Except String PyDict
  recordInsight : Except String Nat
  updateInterest : Except String Unit
  addInterest : Except String Nat
  markCompleted : Except String Unit
  completeSession : Except String Unit

/-- The dictionary the outermost `except` handler returns:
`{"status": "error", "error": str(e)}` (line 719). -/
def errResult (e : String) : PyDict :=
  [("status", PyVal.str "error"), ("error", PyVal.str e)]

/-- `reflection.get('new_interest_sparked')` viewed as an optional
dictionary (absent key and JSON null are both Python-falsy `None`). -/
def newInterestDict (reflection : PyDict) : Option (List (String × String)) :=
  match reflection.lookup "new_interest_sparked" with
  | some (PyVal.strDict d) => some d
  | _ => none

/-- The guard `if new_interest and new_interest.get('topic'):` of line 684:
the dictionary must be truthy (non-empty) and its topic present and
truthy (non-empty). -/
def newInterestTruthyTopic (reflection : PyDict) : Option String :=
  match newInterestDict reflection with
  | some d =>
    if d.isEmpty then none
    else
      match d.lookup "topic" with
      | some t => if t = "" then none else some t
      | none => none
  | none => none

/-- The value stored under `"new_interest"` in the completed result
dictionary: `new_interest.get('topic') if new_interest else None`
(line 712). -/
def newInterestResultVal (reflection : PyDict) : PyVal :=
  match newInterestDict reflection with
  | some d =>
    if d.isEmpty then PyVal.null
    else
      match d.lookup "topic" with
      | some t => PyVal.str t
      | none => PyVal.null
  | none => PyVal.null

/-- `run_learning_session`: the full orchestrated pipeline.  Every oracle
failure falls through to the outermost handler, which returns the error
dictionary and performs no store write of its own. -/
def run_learning_session (o : SessionOracles) : PyDict × List StoreEvent :=
  match o.startSession with
  | Except.error e => (errResult e, [])
  | Except.ok session_id =>
    let evs0 := [StoreEvent.sessionStarted session_id]
    match o.chooseTopic with
    | Except.error e => (errResult e, evs0)
    | Except.ok topic_choice =>
      let topic := pyGetStrD topic_choice "topic" "Unknown"
      let queries := pyGetListStrD topic_choice "search_queries" []
      let interest_id := pyGetNatTruthy topic_choice "interest_id"
      match (match pyGetNatTruthy topic_choice "research_id" with
             | some rid => Except.ok (rid, false)
             | none =>
               match o.queueResearch with
               | Except.error e => Except.error e
               | Except.ok rid => Except.ok (rid, true)) with
      | Except.error e => (errResult e, evs0)
      | Except.ok (request_id, queued) =>
        let evs1 := evs0 ++
          (if queued then [StoreEvent.researchQueued request_id] else [])
        match o.markInProgress with
        | Except.error e => (errResult e, evs1)
        | Except.ok _ =>
          let evs2 := evs1 ++ [StoreEvent.researchStatus request_id "in_progress" none]
          let results := perform_research o.searchFn o.fetchFn queries
          let evs3 := evs2 ++
            (if request_id = 0 then [] else results.map StoreEvent.resultSaved)
          if results.isEmpty then
            match o.markFailed with
            | Except.error e => (errResult e, evs3)
            | Except.ok _ =>
              let evs4 := evs3 ++
                [StoreEvent.researchStatus request_id "failed" (some "No results found")]
              match o.completeSession with
              | Except.error e => (errResult e, evs4)
              | Except.ok _ =>
                let evs5 := evs4 ++
                  [StoreEvent.sessionCompleted session_id "failed"
                    (some "No research results") 0 0 0]
                ([("status", PyVal.str "failed"),
                  ("error", PyVal.str "No results found"),
                  ("topic", PyVal.str topic)], evs5)
          else
            let evs3r := evs3 ++ [StoreEvent.reflected]
            match o.reflect with
            | Except.error e => (errResult e, evs3r)
            | Except.ok reflection =>
              let key_insights := pyGetListStrD reflection "key_insights" []
              let new_questions := pyGetListStrD reflection "new_questions" []
              match o.recordInsight with
              | Except.error e => (errResult e, evs3r)
              | Except.ok insight_id =>
                let evs4 := evs3r ++ [StoreEvent.insightRecorded insight_id]
                match (match interest_id with
                       | some _ =>
                         (match o.updateInterest with
                          | Except.error e => Except.error e
                          | Except.ok _ => Except.ok ())
                       | none => Except.ok ()) with
                | Except.error e => (errResult e, evs4)
                | Except.ok _ =>
                  let evs5 := evs4 ++
                    (match interest_id with
                     | some iid =>
                       [StoreEvent.interestUpdated iid key_insights new_questions]
                     | none => [])
                  match (match newInterestTruthyTopic reflection with
                         | some _ =>
                           (match o.addInterest with
                            | Except.error e => Except.error e
                            | Except.ok _ => Except.ok ())
                         | none => Except.ok ()) with
                  | Except.error e => (errResult e, evs5)
                  | Except.ok _ =>
                    let new_interest_count : Nat :=
                      match newInterestTruthyTopic reflection with
                      | some _ => 1
                      | none => 0
                    let evs6 := evs5 ++
                      (match newInterestTruthyTopic reflection with
                       | some t => [StoreEvent.interestAdded t]
                       | none => [])
                    match o.markCompleted with
                    | Except.error e => (errResult e, evs6)
                    | Except.ok _ =>
                      let evs7 := evs6 ++
                        [StoreEvent.researchStatus request_id "completed" none]
                      match o.completeSession with
                      | Except.error e => (errResult e, evs7)
                      | Except.ok _ =>
                        let evs8 := evs7 ++
                          [StoreEvent.sessionCompleted session_id "completed" none
                            key_insights.length new_questions.length new_interest_count]
                        ([("status", PyVal.str "completed"),
                          ("session_id", PyVal.nat session_id),
                          ("topic", PyVal.str topic),
                          ("insights", PyVal.listStr key_insights),
                          ("new_questions", PyVal.listStr new_questions),
                          ("summary", PyVal.str (pyGetStrD reflection "summary" "")),
                          ("new_interest", newInterestResultVal reflection)], evs8)

/-- Modelled from the spec: the `learning_sessions` schema (not under
`src/`) gives new session rows status "in_progress" (spec section 4.6,
step 1); a later `complete_learning_session` write sets the final status.
This reads the session's status off the event log. -/
def sessionStatusIn (evs : List StoreEvent) (sid : Nat) : String :=
  match (evs.filterMap (fun ev =>
    match ev with
    | StoreEvent.sessionCompleted s st _ _ _ _ => if s = sid then some st else none
    | _ => none)).getLast? with
  | some st => st
  | none => "in_progress"

/-! ### Concrete fixtures used by witnesses and counterexamples -/

/-- A JSON decoder that always fails, standing for an LLM reply whose
payload is not valid JSON. -/
def parseJsonNever : String → Option PyDict := fun _ => none

/-- A raw provider result using the `link`/`snippet` field convention. -/
def rawLinkSnippet : RawResult :=
  { href := none, link := some "http://example.org", title := some "T",
    body := none, snippet := some "S" }

/-- A provider that returns exactly one raw result. -/
def providerOne : String → Nat → Except String (List RawResult) :=
  fun _ _ => Except.ok [rawLinkSnippet]

/-- An HTTP client that always succeeds with a 200 response. -/
def httpOk200 : String → Except String HttpResponse :=
  fun _ => Except.ok { status := 200, text := "page" }

/-- An HTML-to-text conversion producing a single line with an inner
space, so that truncation can cut right after the space. -/
def h2tInnerSpace : String → Except String String :=
  fun _ => Except.ok "ab cd"

/-- An HTML-to-text conversion producing padded lines. -/
def h2tPadded : String → Except String String :=
  fun _ => Except.ok " hello \nworld "

/-- A search oracle that always finds one result. -/
def searchFnOne : String → List SearchResultDict :=
  fun _ => [{ url := "http://a", title := "T", snippet := "S" }]

/-- A search oracle that never finds anything. -/
def searchFnEmpty : String → List SearchResultDict := fun _ => []

/-- A fetch oracle that always yields content. -/
def fetchFnSome : String → Option String := fun _ => some "content"

/-- A well-formed topic choice, as the topic chooser would return it. -/
def topicChoiceRust : PyDict :=
  [("choice_type", PyVal.str "new_topic"),
   ("topic", PyVal.str "Rust ownership"),
   ("search_queries", PyVal.listStr ["rust ownership"]),
   ("why_now", PyVal.str "w"),
   ("hoping_to_learn", PyVal.str "h")]

/-- A well-formed reflection that sparks one new interest. -/
def reflectionGood : PyDict :=
  [("summary", PyVal.str "learned things"),
   ("key_insights", PyVal.listStr ["i1", "i2"]),
   ("new_questions", PyVal.listStr ["q1"]),
   ("confidence", PyVal.str "high"),
   ("applicable_to", PyVal.listStr []),
   ("new_interest_sparked", PyVal.strDict [("topic", "Lifetimes"), ("why", "deep")])]

/-- Oracles for a fully successful run. -/
def oraclesOk : SessionOracles :=
  { startSession := Except.ok 1
    chooseTopic := Except.ok topicChoiceRust
    queueResearch := Except.ok 2
    markInProgress := Except.ok ()
    searchFn := searchFnOne
    fetchFn := fetchFnSome
    markFailed := Except.ok ()
    reflect := Except.ok reflectionGood
    recordInsight := Except.ok 3
    updateInterest := Except.ok ()
    addInterest := Except.ok 4
    markCompleted := Except.ok ()
    completeSession := Except.ok () }

/-- Oracles for a run in which every search comes back empty. -/
def oraclesEmptySearch : SessionOracles :=
  { oraclesOk with searchFn := searchFnEmpty }

/-- Oracles for a run in which the topic-choice LLM call raises. -/
def oraclesChooseRaises : SessionOracles :=
  { oraclesOk with chooseTopic := Except.error "API connection error" }

/-- Oracles for a run in which the reflection LLM call raises. -/
def oraclesReflectRaises : SessionOracles :=
  { oraclesOk with reflect := Except.error "API connection error" }

/-- An interest mid-exploration holding one insight and one question. -/
def interestExploring : LearningInterest :=
  { topic := "t", why_interested := "w", sparked_by := none, priority := 5,
    status := "exploring", insights_gained := ["i0"],
    remaining_questions := ["old question"], last_explored_at := none }

/-- An interest at exactly 10 accumulated insights, still exploring. -/
def interestTen : LearningInterest :=
  { topic := "t", why_interested := "w", sparked_by := none, priority := 5,
    status := "exploring",
    insights_gained := ["a1", "a2", "a3", "a4", "a5", "a6", "a7", "a8", "a9", "a10"],
    remaining_questions := [], last_explored_at := none }

/-! ## Theorems -/

/-- Auxiliary: a `flatMap` whose pieces are uniformly short is short. -/
theorem length_flatMap_le {α β : Type} (l : List α) (g : α → List β) (k : Nat)
    (h : ∀ a, (g a).length ≤ k) : (l.flatMap g).length ≤ k * l.length := by
  induction l with
  | nil => simp
  | cons a t ih =>
    simp only [List.flatMap_cons, List.length_append, List.length_cons, Nat.mul_succ]
    have h1 := h a
    omega

/-- C1: for every query list and every behaviour of the search and fetch
oracles, `perform_research` searches the web once per element of
`queries[:MAX_SEARCH_QUERIES]` (so at most 3 searches), attempts at most
2 page fetches per processed query (each produced row corresponds to
exactly one `fetch_page_content` call), and therefore performs at most 6
page-fetch attempts in total. -/
theorem C1_perform_research_call_bounds
    (searchFn : String → List SearchResultDict) (fetchFn : String → Option String)
    (queries : List String) :
    perform_research searchFn fetchFn queries
        = (queries.take MAX_SEARCH_QUERIES).flatMap (researchPerQuery searchFn fetchFn)
    ∧ (queries.take MAX_SEARCH_QUERIES).length ≤ 3
    ∧ (∀ q, (researchPerQuery searchFn fetchFn q).length ≤ 2)
    ∧ (perform_research searchFn fetchFn queries).length ≤ 6 := by
  have hper : ∀ q, (researchPerQuery searchFn fetchFn q).length ≤ 2 := by
    intro q
    calc (researchPerQuery searchFn fetchFn q).length
        ≤ ((searchFn q).take 2).length := List.length_filterMap_le _ _
      _ ≤ 2 := (searchFn q).length_take_le 2
  have htake : (queries.take MAX_SEARCH_QUERIES).length ≤ 3 :=
    queries.length_take_le MAX_SEARCH_QUERIES
  refine ⟨rfl, htake, hper, ?_⟩
  calc (perform_research searchFn fetchFn queries).length
      ≤ 2 * (queries.take MAX_SEARCH_QUERIES).length :=
        length_flatMap_le _ _ 2 hper
    _ ≤ 6 := by omega

/-- C9: `search_web` degrades any provider exception to the empty list
(hence never raises in the model, which is total); on provider success it
converts each raw result to a url/title/snippet dictionary, taking the
url from the `href` field or else the `link` field, and the snippet from
the `body` field or else the `snippet` field; the output has one entry
per provider result, hence at most `max_results` entries whenever the
provider honours its documented bound. -/
theorem C9_search_web_spec
    (provider : String → Nat → Except String (List RawResult))
    (query : String) (max_results : Nat) :
    (∀ e, provider query max_results = Except.error e →
        search_web provider query max_results = [])
    ∧ (∀ rs, provider query max_results = Except.ok rs →
        search_web provider query max_results = rs.map convertRawResult
        ∧ (search_web provider query max_results).length = rs.length
        ∧ (rs.length ≤ max_results →
            (search_web provider query max_results).length ≤ max_results)
        ∧ (∀ r ∈ rs,
            (∀ u, r.href = some u → (convertRawResult r).url = u)
            ∧ (r.href = none → ∀ u, r.link = some u → (convertRawResult r).url = u)
            ∧ (r.href = none → r.link = none → (convertRawResult r).url = "")
            ∧ (∀ b, r.body = some b → (convertRawResult r).snippet = b)
            ∧ (r.body = none → ∀ sn, r.snippet = some sn →
                (convertRawResult r).snippet = sn))) := by
  constructor
  · intro e he
    simp [search_web, he]
  · intro rs hrs
    have hmap : search_web provider query max_results = rs.map convertRawResult := by
      simp [search_web, hrs]
    refine ⟨hmap, by simp [hmap], by intro h; simp [hmap]; exact h, ?_⟩
    intro r _
    refine ⟨?_, ?_, ?_, ?_, ?_⟩
    · intro u hu; simp [convertRawResult, hu]
    · intro hh u hu; simp [convertRawResult, hh, hu]
    · intro hh hl; simp [convertRawResult, hh, hl]
    · intro b hb; simp [convertRawResult, hb]
    · intro hb sn hsn; simp [convertRawResult, hb, hsn]

/-- C9 witness: a provider returning one `link`/`snippet`-style result
produces exactly one converted dictionary, within the bound 3. -/
theorem C9_search_web_spec_witness :
    search_web providerOne "q" 3
        = [{ url := "http://example.org", title := "T", snippet := "S" }]
    ∧ (search_web providerOne "q" 3).length ≤ 3 := by
  have h := (C9_search_web_spec providerOne "q" 3).2 [rawLinkSnippet] rfl
  exact ⟨by rw [h.1]; rfl, h.2.2.1 (by decide)⟩

/-- C6: whenever the extracted payload of the LLM reply fails to decode as
JSON, `choose_learning_topic` returns the one fixed fallback dictionary:
its topic is the fixed fallback topic string, it carries exactly two
canned search queries, and the same dictionary results from every such
failing input. -/
theorem C6_choose_topic_fallback
    (parseJson : String → Option PyDict) (content : String)
    (h : parseJson (pyStrip (extractPayload content)) = none) :
    choose_learning_topic parseJson content = fallback_topic_choice
    ∧ pyGetStrD (choose_learning_topic parseJson content) "topic" ""
        = "Python best practices 2026"
    ∧ (pyGetListStrD (choose_learning_topic parseJson content) "search_queries" []).length
        = 2
    ∧ (∀ (parseJson2 : String → Option PyDict) (content2 : String),
        parseJson2 (pyStrip (extractPayload content2)) = none →
        choose_learning_topic parseJson2 content2
          = choose_learning_topic parseJson content) := by
  have hfb : choose_learning_topic parseJson content = fallback_topic_choice := by
    simp [choose_learning_topic, h]
  refine ⟨hfb, by rw [hfb]; rfl, by rw [hfb]; rfl, ?_⟩
  intro p2 c2 h2
  rw [hfb]
  simp [choose_learning_topic, h2]

/-- C6 witness: a decoder that always fails sends a non-JSON reply to the
fixed fallback choice. -/
theorem C6_choose_topic_fallback_witness :
    choose_learning_topic parseJsonNever "this is not json" = fallback_topic_choice
    ∧ pyGetStrD (choose_learning_topic parseJsonNever "this is not json") "topic" ""
        = "Python best practices 2026" := by
  have h := C6_choose_topic_fallback parseJsonNever "this is not json" rfl
  exact ⟨h.1, h.2.1⟩

/-- C7: whenever the extracted payload of the LLM reply fails to decode as
JSON, `reflect_on_learning` returns the one fixed fallback reflection:
confidence "low" with empty insight and question lists, instead of
propagating the parse error. -/
theorem C7_reflection_fallback
    (parseJson : String → Option PyDict) (content : String)
    (h : parseJson (pyStrip (extractPayload content)) = none) :
    reflect_on_learning parseJson content = fallback_reflection
    ∧ pyGetStrD (reflect_on_learning parseJson content) "confidence" "" = "low"
    ∧ pyGetListStrD (reflect_on_learning parseJson content) "key_insights" ["x"] = []
    ∧ pyGetListStrD (reflect_on_learning parseJson content) "new_questions" ["x"] = [] := by
  have hfb : reflect_on_learning parseJson content = fallback_reflection := by
    simp [reflect_on_learning, h]
  exact ⟨hfb, by rw [hfb]; rfl, by rw [hfb]; rfl, by rw [hfb]; rfl⟩

/-- C7 witness: a decoder that always fails sends a non-JSON reply to the
fixed low-confidence reflection. -/
theorem C7_reflection_fallback_witness :
    reflect_on_learning parseJsonNever "```json broken" = fallback_reflection
    ∧ pyGetStrD (reflect_on_learning parseJsonNever "```json broken") "confidence" ""
        = "low" := by
  have h := C7_reflection_fallback parseJsonNever "```json broken" rfl
  exact ⟨h.1, h.2.1⟩

/-- C4: an interest created by `add_learning_interest` starts "curious"
and its first `update_interest_insights` always moves it to "exploring";
a further update of an "exploring" interest keeps "exploring" unless the
cumulative insight count (pre-update `insights_gained` plus the newly
supplied insights) exceeds 10, in which case it becomes "deepening"; and
on the curious/exploring/deepening scale the update never lowers the
status. -/
theorem C4_interest_status_progression :
    (∀ (topic why : String) (sb : Option String) (p : Nat)
        (ins : List String) (qs : Option (List String)) (now : Nat),
        (add_learning_interest topic why sb p).status = "curious"
        ∧ (update_interest_insights (add_learning_interest topic why sb p) ins qs now).status
            = "exploring")
    ∧ (∀ (li : LearningInterest) (ins : List String) (qs : Option (List String)) (now : Nat),
        li.status = "exploring" →
        (update_interest_insights li ins qs now).status
          = if li.insights_gained.length + ins.length > 10 then "deepening"
            else "exploring")
    ∧ (∀ (li : LearningInterest) (ins : List String) (qs : Option (List String)) (now : Nat),
        (li.status = "curious" ∨ li.status = "exploring" ∨ li.status = "deepening") →
        interestStatusRank li.status
          ≤ interestStatusRank (update_interest_insights li ins qs now).status) := by
  refine ⟨?_, ?_, ?_⟩
  · intro topic why sb p ins qs now
    exact ⟨rfl, by simp [update_interest_insights, add_learning_interest]⟩
  · intro li ins qs now h
    simp only [update_interest_insights, h]
    split <;> simp_all
  · intro li ins qs now h
    rcases h with h | h | h <;>
      simp only [update_interest_insights, h, interestStatusRank] <;>
      split_ifs <;> simp_all

/-- C4 witness: an "exploring" interest holding 10 insights crosses the
threshold with one more insight and becomes "deepening", never lower. -/
theorem C4_interest_status_progression_witness :
    (update_interest_insights (add_learning_interest "t" "w" none 5) ["i"] none 1).status
        = "exploring"
    ∧ (update_interest_insights interestTen ["one more"] none 2).status = "deepening"
    ∧ interestStatusRank interestExploring.status
        ≤ interestStatusRank (update_interest_insights interestExploring [] none 3).status := by
  have h := C4_interest_status_progression
  refine ⟨(h.1 "t" "w" none 5 ["i"] none 1).2, ?_, h.2.2 interestExploring [] none 3 (Or.inr (Or.inl rfl))⟩
  have h2 := h.2.1 interestTen ["one more"] none 2 rfl
  simpa using h2

/-- C5 counterexample: updating an interest whose `remaining_questions`
is `["old question"]` with the new question list `["new question"]`
replaces the stored questions instead of appending to them (the SQL sets
`remaining_questions = COALESCE(new, old)`), contradicting the claim that
both lists grow by appending. -/
theorem C5_counterexample :
    (update_interest_insights interestExploring ["i1"] (some ["new question"]) 7).remaining_questions
        = ["new question"]
    ∧ (update_interest_insights interestExploring ["i1"] (some ["new question"]) 7).remaining_questions
        ≠ interestExploring.remaining_questions ++ ["new question"] := by
  exact ⟨rfl, by decide⟩

/-- C5 (amended): `update_interest_insights` appends the supplied insights
to `insights_gained`, but REPLACES `remaining_questions` with the supplied
question list whenever that list is present and non-empty (leaving the
stored questions untouched when the argument is `None` or empty, via
`COALESCE`), and sets the last-explored timestamp to the current time. -/
theorem C5_update_interest_fields
    (li : LearningInterest) (ins : List String) (qs : Option (List String)) (now : Nat) :
    (update_interest_insights li ins qs now).insights_gained = li.insights_gained ++ ins
    ∧ ((qs = none ∨ qs = some []) →
        (update_interest_insights li ins qs now).remaining_questions
          = li.remaining_questions)
    ∧ (∀ l, qs = some l → l ≠ [] →
        (update_interest_insights li ins qs now).remaining_questions = l)
    ∧ (update_interest_insights li ins qs now).last_explored_at = some now := by
  refine ⟨rfl, ?_, ?_, rfl⟩
  · rintro (h | h) <;> simp [update_interest_insights, h]
  · intro l hl hne
    simp [update_interest_insights, hl, hne]

/-- C5 witness: a non-empty question list replaces the stored questions,
the insights are appended, and the timestamp advances. -/
theorem C5_update_interest_fields_witness :
    (update_interest_insights interestExploring ["i1"] (some ["q9"]) 7).insights_gained
        = ["i0", "i1"]
    ∧ (update_interest_insights interestExploring ["i1"] (some ["q9"]) 7).remaining_questions
        = ["q9"]
    ∧ (update_interest_insights interestExploring ["i1"] (some ["q9"]) 7).last_explored_at
        = some 7 := by
  have h := C5_update_interest_fields interestExploring ["i1"] (some ["q9"]) 7
  exact ⟨h.1, h.2.2.1 ["q9"] rfl (by decide), h.2.2.2⟩

/-- Auxiliary: a list already free of leading matches stays so after also
dropping trailing matches. -/
theorem dropWhile_rdropWhile_self {p : Char → Bool} (f : List Char)
    (hdwf : List.dropWhile p f = f) :
    List.dropWhile p (List.rdropWhile p f) = List.rdropWhile p f := by
  rcases hl2 : List.rdropWhile p f with _ | ⟨a, rest⟩
  · rfl
  · obtain ⟨t, ht⟩ := List.rdropWhile_prefix p f
    rw [hl2] at ht
    have hfa : p a = false := by
      by_contra hpa
      rw [Bool.not_eq_false] at hpa
      rw [← ht, List.cons_append, List.dropWhile_cons, if_pos hpa] at hdwf
      have hle := (List.dropWhile_sublist (l := rest ++ t) p).length_le
      rw [hdwf] at hle
      simp at hle
    rw [List.dropWhile_cons, if_neg (by simp [hfa])]

/-- Auxiliary: the model of Python `strip` is idempotent. -/
theorem pyStrip_idem (s : String) : pyStrip (pyStrip s) = pyStrip s := by
  show String.mk (List.rdropWhile Char.isWhitespace
      (List.dropWhile Char.isWhitespace
        (List.rdropWhile Char.isWhitespace
          (List.dropWhile Char.isWhitespace s.data)))) = _
  rw [dropWhile_rdropWhile_self _ (List.dropWhile_idempotent _ _),
    List.rdropWhile_idempotent]
  rfl

/-- Auxiliary: every kept line of the cleaned page text is non-blank and
already stripped. -/
theorem cleanParts_stripped (raw : String) :
    ∀ l ∈ cleanParts raw, l ≠ "" ∧ pyStrip l = l := by
  intro l hl
  unfold cleanParts at hl
  rw [List.mem_filter] at hl
  obtain ⟨hmem, hne⟩ := hl
  rw [List.mem_map] at hmem
  obtain ⟨x, _, hx⟩ := hmem
  exact ⟨by simpa using hne, by rw [← hx, pyStrip_idem]⟩

/-- C8 counterexample: truncation cuts the cleaned text mid-line, so a
returned string can end in whitespace.  With a page whose extracted text
is the single stripped line "ab cd" and a 3-character bound, the function
returns "ab ", whose (only) line carries trailing whitespace — refuting
the claim that every returned string consists only of non-blank lines
stripped of leading and trailing whitespace. -/
theorem C8_counterexample :
    fetch_page_content httpOk200 h2tInnerSpace "http://x" 3 = some "ab "
    ∧ strippedNonBlankLines "ab " = false := by
  constructor
  · rfl
  · decide

/-- C8 (amended): `fetch_page_content` never raises in the model (it is
total): an HTTP exception, a 4xx/5xx status or a converter exception each
yield `None`.  On success it returns the cleaned text truncated to
`max_length`: the result's length is at most `max_length`, it is a prefix
of the cleaned text, every line kept by the cleaning pass is non-blank
and stripped of surrounding whitespace, and when the cleaned text fits
within `max_length` it is returned unchanged (so only a truncated return
can end mid-line). -/
theorem C8_fetch_page_content_spec
    (http : String → Except String HttpResponse)
    (h2t : String → Except String String) (url : String) (max_length : Nat) :
    (∀ e, http url = Except.error e →
        fetch_page_content http h2t url max_length = none)
    ∧ (∀ resp, http url = Except.ok resp → 400 ≤ resp.status → resp.status < 600 →
        fetch_page_content http h2t url max_length = none)
    ∧ (∀ resp e, http url = Except.ok resp → h2t resp.text = Except.error e →
        fetch_page_content http h2t url max_length = none)
    ∧ (∀ resp raw, http url = Except.ok resp →
        ¬(400 ≤ resp.status ∧ resp.status < 600) → h2t resp.text = Except.ok raw →
        ∃ s, fetch_page_content http h2t url max_length = some s
          ∧ s.length ≤ max_length
          ∧ (∃ rest, (cleanLines raw).data = s.data ++ rest)
          ∧ (∀ l ∈ cleanParts raw, l ≠ "" ∧ pyStrip l = l)
          ∧ ((cleanLines raw).length ≤ max_length → s = cleanLines raw)) := by
  refine ⟨?_, ?_, ?_, ?_⟩
  · intro e he
    simp [fetch_page_content, he]
  · intro resp hresp h4 h6
    simp only [fetch_page_content, hresp]
    rw [if_pos ⟨h4, h6⟩]
  · intro resp e hresp he
    simp only [fetch_page_content, hresp]
    split
    · rfl
    · rw [he]
  · intro resp raw hresp hstatus hraw
    simp only [fetch_page_content, hresp]
    rw [if_neg hstatus, hraw]
    refine ⟨_, rfl, ?_, ?_, cleanParts_stripped raw, ?_⟩
    · split
      · show ((cleanLines raw).data.take max_length).length ≤ max_length
        rw [List.length_take]
        omega
      · omega
    · split
      · exact ⟨(cleanLines raw).data.drop max_length,
          ((cleanLines raw).data.take_append_drop max_length).symm⟩
      · exact ⟨[], (List.append_nil _).symm⟩
    · intro hle
      split
      · omega
      · rfl

/-- C8 witness: a successful fetch of a two-line padded page returns the
stripped, newline-joined text untruncated. -/
theorem C8_fetch_page_content_spec_witness :
    fetch_page_content httpOk200 h2tPadded "http://x" 4000 = some "hello\nworld" := by
  obtain ⟨s, hs, hlen, hpre, hparts, hexact⟩ :=
    (C8_fetch_page_content_spec httpOk200 h2tPadded "http://x" 4000).2.2.2
      { status := 200, text := "page" } " hello \nworld " rfl (by decide) rfl
  rw [hs, hexact (by decide)]
  rfl

/-- C3 counterexample: when an exception escapes a pipeline step (here
the topic-choice LLM call raising "API connection error"), the outermost
handler returns a dictionary carrying only status and error — there is no
topic key, refuting the claim that every returned dictionary contains
both a status and a topic key. -/
theorem C3_counterexample :
    hasKey (run_learning_session oraclesChooseRaises).1 "status" = true
    ∧ hasKey (run_learning_session oraclesChooseRaises).1 "topic" = false := by
  decide

/-- C3 (amended): every dictionary returned by `run_learning_session`
contains a status key; on the non-exception paths (status "failed" or
"completed") it also contains a topic key; when the status is "completed"
it additionally contains the insights, new-questions, summary and
new-interest keys; on the exception path (status "error") it contains an
error key instead of a topic key. -/
theorem C3_result_keys (o : SessionOracles) :
    hasKey (run_learning_session o).1 "status" = true
    ∧ ((run_learning_session o).1.lookup "status" = some (PyVal.str "completed") →
        hasKey (run_learning_session o).1 "topic" = true
        ∧ hasKey (run_learning_session o).1 "insights" = true
        ∧ hasKey (run_learning_session o).1 "new_questions" = true
        ∧ hasKey (run_learning_session o).1 "summary" = true
        ∧ hasKey (run_learning_session o).1 "new_interest" = true)
    ∧ ((run_learning_session o).1.lookup "status" = some (PyVal.str "failed") →
        hasKey (run_learning_session o).1 "topic" = true)
    ∧ ((run_learning_session o).1.lookup "status" = some (PyVal.str "error") →
        hasKey (run_learning_session o).1 "error" = true) := by
  simp only [run_learning_session]
  repeat' split
  all_goals simp [hasKey, errResult, List.lookup]

/-- C3 witness: a fully successful run has status "completed" and carries
the success payload keys. -/
theorem C3_result_keys_witness :
    (run_learning_session oraclesOk).1.lookup "status" = some (PyVal.str "completed")
    ∧ hasKey (run_learning_session oraclesOk).1 "topic" = true
    ∧ hasKey (run_learning_session oraclesOk).1 "insights" = true
    ∧ hasKey (run_learning_session oraclesOk).1 "new_interest" = true := by
  have h := (C3_result_keys oraclesOk).2.1 (by decide)
  exact ⟨by decide, h.1, h.2.1, h.2.2.2.2⟩

/-- C2: when session start and topic choice succeed, the request is
resolved (creating one if the choice carried no research id) and the
research produces no results, while the status updates and the session
bookkeeping write succeed, `run_learning_session` marks the research
request "failed" with error message "No results found", marks the session
"failed", never invokes the reflector, and returns early with exactly the
dictionary `{"status": "failed", "error": "No results found",
"topic": topic}`. -/
theorem C2_empty_results_failed_path
    (o : SessionOracles) (sid qid : Nat) (tc : PyDict)
    (hstart : o.startSession = Except.ok sid)
    (hchoose : o.chooseTopic = Except.ok tc)
    (hq : o.queueResearch = Except.ok qid)
    (hmip : o.markInProgress = Except.ok ())
    (hempty : perform_research o.searchFn o.fetchFn
        (pyGetListStrD tc "search_queries" []) = [])
    (hmf : o.markFailed = Except.ok ())
    (hcs : o.completeSession = Except.ok ()) :
    (run_learning_session o).1
        = [("status", PyVal.str "failed"), ("error", PyVal.str "No results found"),
           ("topic", PyVal.str (pyGetStrD tc "topic" "Unknown"))]
    ∧ (∃ rid, StoreEvent.researchStatus rid "failed" (some "No results found")
        ∈ (run_learning_session o).2)
    ∧ StoreEvent.sessionCompleted sid "failed" (some "No research results") 0 0 0
        ∈ (run_learning_session o).2
    ∧ StoreEvent.reflected ∉ (run_learning_session o).2 := by
  rcases hrid : pyGetNatTruthy tc "research_id" with _ | rid
  · simp only [run_learning_session, hstart, hchoose, hq, hmip, hmf, hcs, hrid,
      hempty, List.isEmpty_nil, if_true]
    refine ⟨?_, ⟨qid, ?_⟩, ?_, ?_⟩ <;> simp
  · simp only [run_learning_session, hstart, hchoose, hq, hmip, hmf, hcs, hrid,
      hempty, List.isEmpty_nil, if_true]
    refine ⟨?_, ⟨rid, ?_⟩, ?_, ?_⟩ <;> simp

/-- C2 witness: with every search coming back empty, the run fails with
the "No results found" dictionary and the reflector is never invoked. -/
theorem C2_empty_results_failed_path_witness :
    (run_learning_session oraclesEmptySearch).1
        = [("status", PyVal.str "failed"), ("error", PyVal.str "No results found"),
           ("topic", PyVal.str "Rust ownership")]
    ∧ StoreEvent.reflected ∉ (run_learning_session oraclesEmptySearch).2 := by
  have h := C2_empty_results_failed_path oraclesEmptySearch 1 2 topicChoiceRust
    rfl rfl rfl rfl (by decide) rfl rfl
  exact ⟨h.1.trans (by decide), h.2.2.2⟩

/-- Auxiliary: if no completion row was ever written for any session, the
session's status read from the event log is still "in_progress". -/
theorem sessionStatusIn_of_no_completed (evs : List StoreEvent) (sid : Nat)
    (h : ∀ (s : Nat) (st : String) (er : Option String) (a b c : Nat),
        StoreEvent.sessionCompleted s st er a b c ∉ evs) :
    sessionStatusIn evs sid = "in_progress" := by
  unfold sessionStatusIn
  have hnil : evs.filterMap (fun ev =>
      match ev with
      | StoreEvent.sessionCompleted s st _ _ _ _ => if s = sid then some st else none
      | _ => none) = [] := by
    rw [List.filterMap_eq_nil_iff]
    intro ev hev
    cases ev with
    | sessionCompleted s st er a b c => exact absurd hev (h s st er a b c)
    | _ => rfl
  rw [hnil]
  rfl

/-- C10: once `start_learning_session` has created the session row, if the
run ends with status "error" (an exception reached the outermost handler),
then no session-completion row was written during the run — in particular
neither `complete_learning_session` call succeeded on that path — so the
session row read back from the store remains "in_progress". -/
theorem C10_outer_handler_no_writes
    (o : SessionOracles) (sid : Nat)
    (hstart : o.startSession = Except.ok sid)
    (herr : (run_learning_session o).1.lookup "status" = some (PyVal.str "error")) :
    (∀ (s : Nat) (st : String) (er : Option String) (a b c : Nat),
        StoreEvent.sessionCompleted s st er a b c ∉ (run_learning_session o).2)
    ∧ sessionStatusIn (run_learning_session o).2 sid = "in_progress" := by
  rcases hrun : run_learning_session o with ⟨d, evs⟩
  rw [hrun] at herr
  simp only [hrun]
  have hnc : ∀ (s : Nat) (st : String) (er : Option String) (a b c : Nat),
      StoreEvent.sessionCompleted s st er a b c ∉ evs := by
    intro s st er a b c
    simp only [run_learning_session, hstart] at hrun
    repeat' split at hrun
    all_goals
      injection hrun with h1 h2
    all_goals subst h1
    all_goals subst h2
    all_goals
      first
      | (simp [errResult, List.mem_append, List.mem_map]; done)
      | simp [errResult, List.lookup] at herr
  exact ⟨hnc, sessionStatusIn_of_no_completed evs sid hnc⟩

/-- C10 witness: with the reflection LLM call raising, the run returns
status "error" and the session row is left "in_progress". -/
theorem C10_outer_handler_no_writes_witness :
    (run_learning_session oraclesReflectRaises).1.lookup "status"
        = some (PyVal.str "error")
    ∧ sessionStatusIn (run_learning_session oraclesReflectRaises).2 1
        = "in_progress" := by
  have h := C10_outer_handler_no_writes oraclesReflectRaises 1 rfl (by decide)
  exact ⟨by decide, h.2⟩

end ClaudeLearning
